import Mathlib

/-!
Verification development for the TSL2561 luminosity-sensor driver
(src/drivers/sensors/tsl2561/tsl2561.c).

The driver is shallowly embedded: the C `unsigned long` / `uint32_t`
arithmetic is modelled on `Nat` with explicit `% 2^32` reductions at every
operation that can overflow, `uint16_t` / `uint8_t` values with `% 2^16` /
`% 256`, and the three `static` module variables plus the shared I2C
buffers as an explicit state record threaded through every operation.
The external I2C engine and `i2cInit` are out-of-scope collaborators and
are modelled as an oracle (`Env`) giving the outcome of each successive
call; each engine invocation is recorded in an event log so that theorems
can speak about the order and number of bus transactions.
-/

set_option autoImplicit false

/-- Integration-time setting, from the driver's enum
(`TSL2561_INTEGRATIONTIME_13MS/101MS/402MS`). -/
inductive tsl2561IntegrationTime_t
  | t13ms
  | t101ms
  | t402ms
deriving DecidableEq, Repr

/-- Modelled from the spec: the numeric codes of the integration-time enum
(the header `tsl2561.h` is not under src/). The timing register receives
`integration | gain`, and the three settings occupy the low command bits
0x00/0x01/0x02. -/
def tsl2561IntegrationTime_t.code : tsl2561IntegrationTime_t → Nat
  | .t13ms => 0x00
  | .t101ms => 0x01
  | .t402ms => 0x02

/-- Gain setting, from the driver's enum (`TSL2561_GAIN_0X/16X`). -/
inductive tsl2561Gain_t
  | g0x
  | g16x
deriving DecidableEq, Repr

/-- Modelled from the spec: the numeric codes of the gain enum (the header
is not under src/). The spec states the 1x ("no gain") setting is encoded
as the zero value; 16x sets the high-gain bit 0x10 in the timing register. -/
def tsl2561Gain_t.code : tsl2561Gain_t → Nat
  | .g0x => 0x00
  | .g16x => 0x10

/-- Modelled from the spec: the fixed-point calibration constants of the
missing header `tsl2561.h` (scale-bit counts, the two short-integration
channel-scale multipliers, and the 8-entry breakpoint table of thresholds
`k1..k8` with coefficients `b1..b8`, `m1..m8` for the build-selected
package).  They are kept abstract here so that the structural theorems do
not depend on particular numbers; `tsl2561DefaultParams` below instantiates
them with the documented default-package calibration table. -/
structure LuxParams where
  chscale : Nat
  ratioscale : Nat
  luxscale : Nat
  chscaleTint0 : Nat
  chscaleTint1 : Nat
  k1 : Nat
  k2 : Nat
  k3 : Nat
  k4 : Nat
  k5 : Nat
  k6 : Nat
  k7 : Nat
  k8 : Nat
  b1 : Nat
  b2 : Nat
  b3 : Nat
  b4 : Nat
  b5 : Nat
  b6 : Nat
  b7 : Nat
  b8 : Nat
  m1 : Nat
  m2 : Nat
  m3 : Nat
  m4 : Nat
  m5 : Nat
  m6 : Nat
  m7 : Nat
  m8 : Nat
deriving DecidableEq, Repr

/-- Modelled from the spec: the concrete constants of the missing header for
the default (non-CS) package — the spec's "documented breakpoint table for
the default (non-CS) package" and the documented channel-scale constants
(`CHSCALE = 10`, `RATIOSCALE = 9`, `LUXSCALE = 14`, `TINT0 = 0x7517`,
`TINT1 = 0x0fe7`).  The first seven thresholds ascend strictly; the stored
eighth threshold equals the seventh, so that the source's final
`ratio > K8` test reads "the ratio exceeds the last finite threshold"
(the spec's catch-all entry). -/
def tsl2561DefaultParams : LuxParams where
  chscale := 10
  ratioscale := 9
  luxscale := 14
  chscaleTint0 := 0x7517
  chscaleTint1 := 0x0fe7
  k1 := 0x0040
  k2 := 0x0080
  k3 := 0x00c0
  k4 := 0x0100
  k5 := 0x0138
  k6 := 0x019a
  k7 := 0x029a
  k8 := 0x029a
  b1 := 0x01f2
  b2 := 0x0214
  b3 := 0x023f
  b4 := 0x0270
  b5 := 0x016f
  b6 := 0x00d2
  b7 := 0x0018
  b8 := 0x0000
  m1 := 0x01be
  m2 := 0x02d1
  m3 := 0x037b
  m4 := 0x03fe
  m5 := 0x01fc
  m6 := 0x00fb
  m7 := 0x0012
  m8 := 0x0000

/-- Unsigned 32-bit subtraction: the value of the C expression `a - b` on
`unsigned long` (32 bits on this target) when `a` is already reduced
modulo 2^32. -/
def sub32 (a b : Nat) : Nat :=
  (a + (2 ^ 32 - b % 2 ^ 32)) % 2 ^ 32

/-- Channel scale constant selected by the integration-time switch and the
gain test of `tsl2561CalculateLux` (tsl2561.c lines 285-299): `TINT0` for
13 ms, `TINT1` for 101 ms, `1 << CHSCALE` otherwise, then `chScale <<= 4`
when the gain value is zero (1x). -/
def tsl2561ChScale (p : LuxParams) (tint : tsl2561IntegrationTime_t)
    (gain : tsl2561Gain_t) : Nat :=
  let chScale :=
    match tint with
    | .t13ms => p.chscaleTint0
    | .t101ms => p.chscaleTint1
    | .t402ms => 2 ^ p.chscale
  if gain.code = 0 then (chScale * 2 ^ 4) % 2 ^ 32 else chScale

/-- Scaled channel value (tsl2561.c lines 302-303):
`channelN = (chN * chScale) >> TSL2561_LUX_CHSCALE` on `unsigned long`,
where `chN` is a `uint16_t` argument. -/
def tsl2561Channel (p : LuxParams) (tint : tsl2561IntegrationTime_t)
    (gain : tsl2561Gain_t) (raw : Nat) : Nat :=
  ((raw % 2 ^ 16) * tsl2561ChScale p tint gain) % 2 ^ 32 / 2 ^ p.chscale

/-- Rounded channel ratio (tsl2561.c lines 306-310): `ratio1` is
`(channel1 << (RATIOSCALE+1)) / channel0`, defined as 0 when `channel0`
is 0, and the rounded value is `(ratio1 + 1) >> 1`. -/
def tsl2561RatioVal (p : LuxParams) (tint : tsl2561IntegrationTime_t)
    (gain : tsl2561Gain_t) (ch0 ch1 : Nat) : Nat :=
  let channel0 := tsl2561Channel p tint gain ch0
  let channel1 := tsl2561Channel p tint gain ch1
  let ratio1 :=
    if channel0 ≠ 0 then
      (channel1 * 2 ^ (p.ratioscale + 1)) % 2 ^ 32 / channel0
    else 0
  ((ratio1 + 1) % 2 ^ 32) / 2

/-- Coefficient pair `(B, M)` of the i-th breakpoint of the table. -/
def tsl2561Entry (p : LuxParams) : Fin 8 → Nat × Nat
  | 0 => (p.b1, p.m1)
  | 1 => (p.b2, p.m2)
  | 2 => (p.b3, p.m3)
  | 3 => (p.b4, p.m4)
  | 4 => (p.b5, p.m5)
  | 5 => (p.b6, p.m6)
  | 6 => (p.b7, p.m7)
  | 7 => (p.b8, p.m8)

/-- Breakpoint selection (tsl2561.c lines 332-347): the source's cascade of
`if ((ratio >= 0) && (ratio <= K1T)) {b=B1T; m=M1T;} else if (ratio <= K2T)
... else if (ratio > K8T) {b=B8T; m=M8T;}`.  The result is the index of the
entry whose coefficients are assigned; `none` models the fall-through case
`K7T < ratio ≤ K8T` in which the C variables `b`, `m` stay uninitialised
(unreachable when `k8 ≤ k7`, as in the concrete table). -/
def tsl2561SelectBM (p : LuxParams) (r : Nat) : Option (Fin 8) :=
  if 0 ≤ r ∧ r ≤ p.k1 then some 0
  else if r ≤ p.k2 then some 1
  else if r ≤ p.k3 then some 2
  else if r ≤ p.k4 then some 3
  else if r ≤ p.k5 then some 4
  else if r ≤ p.k6 then some 5
  else if r ≤ p.k7 then some 6
  else if p.k8 < r then some 7
  else none

/-- Index of the calibration-curve breakpoint that `tsl2561CalculateLux`
selects for the given inputs. -/
def tsl2561LuxIdx (p : LuxParams) (tint : tsl2561IntegrationTime_t)
    (gain : tsl2561Gain_t) (ch0 ch1 : Nat) : Option (Fin 8) :=
  tsl2561SelectBM p (tsl2561RatioVal p tint gain ch0 ch1)

/-- Embedding of `tsl2561CalculateLux` (tsl2561.c lines 279-364).  The two
raw channel arguments are `uint16_t`; the computation runs on
`unsigned long` (32-bit).  `none` models the uninitialised-coefficients
fall-through of the selection cascade.  Note the source line
`if (temp < 0) temp = 0;` compares the unsigned accumulator with 0, so the
branch is never taken; the embedding keeps the comparison verbatim. -/
def tsl2561CalculateLux (p : LuxParams) (tint : tsl2561IntegrationTime_t)
    (gain : tsl2561Gain_t) (ch0 ch1 : Nat) : Option Nat :=
  match tsl2561LuxIdx p tint gain ch0 ch1 with
  | none => none
  | some idx =>
    let channel0 := tsl2561Channel p tint gain ch0
    let channel1 := tsl2561Channel p tint gain ch1
    let b := (tsl2561Entry p idx).1
    let m := (tsl2561Entry p idx).2
    -- temp = ((channel0 * b) - (channel1 * m));  (unsigned long)
    let temp := sub32 ((channel0 * b) % 2 ^ 32) ((channel1 * m) % 2 ^ 32)
    -- if (temp < 0) temp = 0;   (dead: temp is unsigned)
    let temp1 := if temp < 0 then 0 else temp
    -- temp += (1 << (TSL2561_LUX_LUXSCALE-1));
    let temp2 := (temp1 + 2 ^ (p.luxscale - 1)) % 2 ^ 32
    -- lux = temp >> TSL2561_LUX_LUXSCALE;  (uint32_t)
    some (temp2 / 2 ^ p.luxscale)

/-- Modelled from the spec: device and register constants of the missing
header `tsl2561.h`.  The spec's register map names CONTROL (power state),
TIMING (integration+gain), CHAN0_LOW and CHAN1_LOW (16-bit word reads),
each accessed with a "command" bit and "word" bit OR'd into the register
address, plus the device address and its read bit; values are the
device's documented ones. -/
def TSL2561_ADDRESS : Nat := 0x72

/-- Modelled from the spec: read bit OR'd onto the device address for the
response phase of a register read. -/
def TSL2561_READBIT : Nat := 0x01

/-- Modelled from the spec: command bit of the device's command-byte
convention. -/
def TSL2561_COMMAND_BIT : Nat := 0x80

/-- Modelled from the spec: word bit of the device's command-byte
convention (16-bit register access). -/
def TSL2561_WORD_BIT : Nat := 0x20

/-- Modelled from the spec: the CONTROL register address (power state). -/
def TSL2561_REGISTER_CONTROL : Nat := 0x00

/-- Modelled from the spec: the TIMING register address
(integration time and gain). -/
def TSL2561_REGISTER_TIMING : Nat := 0x01

/-- Modelled from the spec: low byte address of the channel-0 data word. -/
def TSL2561_REGISTER_CHAN0_LOW : Nat := 0x0C

/-- Modelled from the spec: low byte address of the channel-1 data word. -/
def TSL2561_REGISTER_CHAN1_LOW : Nat := 0x0E

/-- Power-on value written to the CONTROL register; the source comment
says "Enable the device by setting the control bit to 0x03". -/
def TSL2561_CONTROL_POWERON : Nat := 0x03

/-- Power-off value written to the CONTROL register (device to sleep). -/
def TSL2561_CONTROL_POWEROFF : Nat := 0x00

/-- Modelled from the spec: size of the shared I2C master buffer
(`I2C_BUFSIZE`, declared in the external I2C driver header, not under
src/); the transactions built here use at most 3 bytes. -/
def I2C_BUFSIZE : Nat := 6

/-- Driver result codes (`tsl2561Error_t`).  `ok` and `i2cInitErr` are the
two values the source produces (`TSL2561_ERROR_OK`,
`TSL2561_ERROR_I2CINIT`); `busErr` is modelled from the spec's error
taxonomy (`BusTransferError`) and, as the theorems below show, is never
produced by the code. -/
inductive tsl2561Error_t
  | ok
  | i2cInitErr
  | busErr
deriving DecidableEq, Repr

/-- Outcome of one invocation of the external bus engine `i2cEngine`:
whether the clocked transfer succeeded, and the two response bytes left
in `I2CSlaveBuffer[0]` / `I2CSlaveBuffer[1]` (for a failed or write-only
transfer these model whatever stale bytes the buffer holds). -/
structure EngineResult where
  engOk : Bool
  r0 : Nat
  r1 : Nat
deriving DecidableEq, Repr

/-- One I2C transaction as handed to the engine: the master buffer
contents and `I2CWriteLength` / `I2CReadLength`. -/
structure I2CTxn where
  buf : List Nat
  wLen : Nat
  rLen : Nat
deriving DecidableEq, Repr

/-- Observable event of a driver run: an engine transaction (with the
engine's outcome) or a `systickDelay(ms)` call. -/
inductive DriverEv
  | i2cTxn (t : I2CTxn) (r : EngineResult)
  | delayEv (ms : Nat)
deriving DecidableEq, Repr

/-- The three `static` module variables of tsl2561.c:
`_tsl2561Initialised`, `_tsl2561IntegrationTime` (default 402 ms) and
`_tsl2561Gain` (default 0x = 1x). -/
structure DrvState where
  initialised : Bool
  integrationTime : tsl2561IntegrationTime_t
  gain : tsl2561Gain_t
deriving DecidableEq, Repr

/-- Whole driver-visible world: the module state, how many times `i2cInit`
and `i2cEngine` have been called (indices into the environment oracle),
and the chronological event log. -/
structure World where
  st : DrvState
  initCalls : Nat
  engCalls : Nat
  log : List DriverEv
deriving DecidableEq, Repr

/-- Environment oracle for the two external collaborators: the result of
the n-th `i2cInit` call and of the n-th `i2cEngine` call. -/
structure Env where
  initOk : Nat → Bool
  engine : Nat → EngineResult

/-- One call of the external `i2cEngine` on a prepared transaction:
consumes the next oracle outcome, logs the event. -/
def i2cEngineCall (env : Env) (w : World) (t : I2CTxn) : World × EngineResult :=
  let r := env.engine w.engCalls
  ({ w with engCalls := w.engCalls + 1, log := w.log ++ [.i2cTxn t r] }, r)

/-- Master buffer for a 2-byte command write (tsl2561.c lines 88-96):
cleared to zero, then address and command byte; bytes are `uint8_t`. -/
def tsl2561CmdTxn (cmd : Nat) : I2CTxn :=
  { buf := ((List.replicate I2C_BUFSIZE 0).set 0 TSL2561_ADDRESS).set 1 (cmd % 256)
    wLen := 2
    rLen := 0 }

/-- Master buffer for a 3-byte register write (tsl2561.c lines 109-118):
cleared to zero, then address, register and `value & 0xFF`. -/
def tsl2561WriteTxn (reg value : Nat) : I2CTxn :=
  { buf := (((List.replicate I2C_BUFSIZE 0).set 0 TSL2561_ADDRESS).set 1
      (reg % 256)).set 2 (value % 256)
    wLen := 3
    rLen := 0 }

/-- Master buffer for a 16-bit register read (tsl2561.c lines 131-141):
cleared to zero, then address, register, and address with the read bit;
two response bytes are expected. -/
def tsl2561ReadTxn (reg : Nat) : I2CTxn :=
  { buf := (((List.replicate I2C_BUFSIZE 0).set 0 TSL2561_ADDRESS).set 1
      (reg % 256)).set 2 (TSL2561_ADDRESS ||| TSL2561_READBIT)
    wLen := 2
    rLen := 2 }

/-- Embedding of `tsl2561WriteCmd` (tsl2561.c lines 85-99): builds the
command transaction, invokes the engine, and returns `TSL2561_ERROR_OK`
unconditionally (the engine's outcome is discarded). -/
def tsl2561WriteCmd (env : Env) (w : World) (cmd : Nat) :
    World × tsl2561Error_t :=
  let (w1, _) := i2cEngineCall env w (tsl2561CmdTxn cmd)
  (w1, .ok)

/-- Embedding of `tsl2561Write8` (tsl2561.c lines 106-121): builds the
3-byte write transaction (only the low byte of the 32-bit `value` is
placed in the buffer), invokes the engine, and returns OK
unconditionally. -/
def tsl2561Write8 (env : Env) (w : World) (reg value : Nat) :
    World × tsl2561Error_t :=
  let (w1, _) := i2cEngineCall env w (tsl2561WriteTxn reg value)
  (w1, .ok)

/-- Value assembled from the two response bytes (tsl2561.c line 145):
`*value = (I2CSlaveBuffer[0] | (I2CSlaveBuffer[1] << 8))`, a `uint16_t`. -/
def tsl2561Read16Value (r : EngineResult) : Nat :=
  (r.r0 % 256) ||| ((r.r1 % 256) * 2 ^ 8)

/-- Embedding of `tsl2561Read16` (tsl2561.c lines 128-148): builds the read
transaction, invokes the engine, assembles the little-endian 16-bit value
from the response buffer, and returns OK unconditionally. -/
def tsl2561Read16 (env : Env) (w : World) (reg : Nat) :
    World × Nat × tsl2561Error_t :=
  let (w1, r) := i2cEngineCall env w (tsl2561ReadTxn reg)
  (w1, tsl2561Read16Value r, .ok)

/-- Embedding of `tsl2561Init` (tsl2561.c lines 181-197).  On `i2cInit`
failure it returns the fatal error with the initialised flag still false.
On success it sets the flag and calls
`tsl2561SetTiming(_tsl2561IntegrationTime, _tsl2561Gain)` discarding the
result; because the flag is already true at that point, the lazy-init
checks inside `tsl2561SetTiming`, `tsl2561Enable` and `tsl2561Disable`
are no-ops and every step reports OK, so that call is inlined here with
those checks resolved (this breaks the source's init/setTiming mutual
recursion; the unfolding is justified line by line against
tsl2561.c lines 204-227, 155-174). -/
def tsl2561Init (env : Env) (w : World) : World × tsl2561Error_t :=
  if env.initOk w.initCalls = false then
    ({ w with initCalls := w.initCalls + 1 }, .i2cInitErr)
  else
    let w1 := { w with
      initCalls := w.initCalls + 1
      st := { w.st with initialised := true } }
    -- tsl2561SetTiming(cur, cur), flag known true:
    -- tsl2561Enable():
    let (w2, _) := tsl2561Write8 env w1
      (TSL2561_COMMAND_BIT ||| TSL2561_REGISTER_CONTROL) TSL2561_CONTROL_POWERON
    -- timing-register write:
    let (w3, _) := tsl2561Write8 env w2
      (TSL2561_COMMAND_BIT ||| TSL2561_REGISTER_TIMING)
      (w1.st.integrationTime.code ||| w1.st.gain.code)
    -- update value placeholders (same values as already stored):
    let w4 := { w3 with st := { w3.st with
      integrationTime := w1.st.integrationTime
      gain := w1.st.gain } }
    -- tsl2561Disable():
    let (w5, _) := tsl2561Write8 env w4
      (TSL2561_COMMAND_BIT ||| TSL2561_REGISTER_CONTROL) TSL2561_CONTROL_POWEROFF
    (w5, .ok)

/-- The lazy-initialisation line `if (!_tsl2561Initialised) tsl2561Init();`
that opens `tsl2561Enable`, `tsl2561Disable`, `tsl2561SetTiming` and
`tsl2561GetLuminosity`: the result of `tsl2561Init` is discarded. -/
def tsl2561LazyInit (env : Env) (w : World) : World :=
  if w.st.initialised then w else (tsl2561Init env w).1

/-- Embedding of `tsl2561Enable` (tsl2561.c lines 155-161): lazy init, then
write the power-on value to the CONTROL register, returning the write's
result. -/
def tsl2561Enable (env : Env) (w : World) : World × tsl2561Error_t :=
  let w1 := tsl2561LazyInit env w
  tsl2561Write8 env w1 (TSL2561_COMMAND_BIT ||| TSL2561_REGISTER_CONTROL)
    TSL2561_CONTROL_POWERON

/-- Embedding of `tsl2561Disable` (tsl2561.c lines 168-174): lazy init,
then write the power-off value to the CONTROL register. -/
def tsl2561Disable (env : Env) (w : World) : World × tsl2561Error_t :=
  let w1 := tsl2561LazyInit env w
  tsl2561Write8 env w1 (TSL2561_COMMAND_BIT ||| TSL2561_REGISTER_CONTROL)
    TSL2561_CONTROL_POWEROFF

/-- Embedding of `tsl2561SetTiming` (tsl2561.c lines 204-227): lazy init,
enable, write `integration | gain` to the TIMING register, update the two
in-memory placeholders, disable; after each step the source checks
`if (error) return error;`. -/
def tsl2561SetTiming (env : Env) (w : World)
    (integration : tsl2561IntegrationTime_t) (gain : tsl2561Gain_t) :
    World × tsl2561Error_t :=
  let w1 := tsl2561LazyInit env w
  let (w2, e1) := tsl2561Enable env w1
  if e1 ≠ .ok then (w2, e1)
  else
    let (w3, e2) := tsl2561Write8 env w2
      (TSL2561_COMMAND_BIT ||| TSL2561_REGISTER_TIMING)
      (integration.code ||| gain.code)
    if e2 ≠ .ok then (w3, e2)
    else
      let w4 := { w3 with st := { w3.st with
                    integrationTime := integration, gain := gain } }
      let (w5, e3) := tsl2561Disable env w4
      if e3 ≠ .ok then (w5, e3) else (w5, e3)

/-- Delay chosen by the integration-time switch of `tsl2561GetLuminosity`
(tsl2561.c lines 245-256): 14 ms, 102 ms, or 400 ms in the default case. -/
def tsl2561DelayMs : tsl2561IntegrationTime_t → Nat
  | .t13ms => 14
  | .t101ms => 102
  | .t402ms => 400

/-- Embedding of `tsl2561GetLuminosity` (tsl2561.c lines 234-271): lazy
init, enable, integration-keyed delay, 16-bit read of channel 0 into
`*broadband`, 16-bit read of channel 1 into `*ir`, disable, with
`if (error) return error;` after every step.  The two `Option Nat`
components model the caller's out-parameters: `some v` once the
corresponding `tsl2561Read16` has stored `v` through the pointer. -/
def tsl2561GetLuminosity (env : Env) (w : World) :
    World × tsl2561Error_t × Option Nat × Option Nat :=
  let w1 := tsl2561LazyInit env w
  let (w2, e1) := tsl2561Enable env w1
  if e1 ≠ .ok then (w2, e1, none, none)
  else
    let w3 := { w2 with log := w2.log ++
      [.delayEv (tsl2561DelayMs w2.st.integrationTime)] }
    let (w4, broadband, e2) := tsl2561Read16 env w3
      (TSL2561_COMMAND_BIT ||| TSL2561_WORD_BIT ||| TSL2561_REGISTER_CHAN0_LOW)
    if e2 ≠ .ok then (w4, e2, some broadband, none)
    else
      let (w5, ir, e3) := tsl2561Read16 env w4
        (TSL2561_COMMAND_BIT ||| TSL2561_WORD_BIT ||| TSL2561_REGISTER_CHAN1_LOW)
      if e3 ≠ .ok then (w5, e3, some broadband, some ir)
      else
        let (w6, e4) := tsl2561Disable env w5
        (w6, e4, some broadband, some ir)

/-- The lux calculator as the source has it: a function of the module
state, reading only the `_tsl2561IntegrationTime` and `_tsl2561Gain`
globals (tsl2561.c lines 285, 299). -/
def tsl2561CalculateLuxSt (p : LuxParams) (w : World) (ch0 ch1 : Nat) :
    Option Nat :=
  tsl2561CalculateLux p w.st.integrationTime w.st.gain ch0 ch1

/-- Environment whose bus engine reports failure on every transfer while
`i2cInit` succeeds; response bytes model a stale slave buffer. -/
def envAllFail : Env where
  initOk := fun _ => true
  engine := fun _ => { engOk := false, r0 := 0, r1 := 0 }

/-- Environment in which every external call succeeds; the engine leaves
the bytes 0x34, 0x12 in the response buffer. -/
def envAllOk : Env where
  initOk := fun _ => true
  engine := fun _ => { engOk := true, r0 := 0x34, r1 := 0x12 }

/-- Environment whose engine fails exactly the third transfer (index 2) —
for an initialised `tsl2561GetLuminosity` run this is the channel-1 read —
and succeeds otherwise. -/
def envFailThird : Env where
  initOk := fun _ => true
  engine := fun n =>
    if n = 2 then { engOk := false, r0 := 7, r1 := 7 }
    else { engOk := true, r0 := 5, r1 := 6 }

/-- Environment whose `i2cInit` fails on every attempt. -/
def envInitFail : Env where
  initOk := fun _ => false
  engine := fun _ => { engOk := true, r0 := 0, r1 := 0 }

/-- Fresh world with the module's initial static values
(`_tsl2561Initialised = false`, 402 ms, gain 0x) but the initialised flag
already set, as after a successful `tsl2561Init`. -/
def w0 : World where
  st := { initialised := true, integrationTime := .t402ms, gain := .g0x }
  initCalls := 0
  engCalls := 0
  log := []

/-- Fresh world with the module's initial static values, before any
initialisation. -/
def wUninit : World where
  st := { initialised := false, integrationTime := .t402ms, gain := .g0x }
  initCalls := 0
  engCalls := 0
  log := []

/-- World agreeing with `w0` on the integration-time and gain settings but
differing in every other state component. -/
def wOther : World where
  st := { initialised := false, integrationTime := .t402ms, gain := .g0x }
  initCalls := 5
  engCalls := 7
  log := [.delayEv 400]

/-- Test for the power-off CONTROL write transaction (the bus effect of
`tsl2561Disable`). -/
def isPowerOffEv : DriverEv → Bool
  | .i2cTxn t _ =>
      t == tsl2561WriteTxn (TSL2561_COMMAND_BIT ||| TSL2561_REGISTER_CONTROL)
        TSL2561_CONTROL_POWEROFF
  | .delayEv _ => false

/-- C8: `tsl2561CalculateLux` is deterministic in the raw channel pair and
the integration-time/gain state: two invocations on worlds that agree on
`_tsl2561IntegrationTime` and `_tsl2561Gain` return the identical lux
value, with no dependence on any other state component (initialised flag,
buffers, call counters, event log). -/
theorem C8_calculateLux_pure (p : LuxParams) (w1 w2 : World) (ch0 ch1 : Nat)
    (ht : w1.st.integrationTime = w2.st.integrationTime)
    (hg : w1.st.gain = w2.st.gain) :
    tsl2561CalculateLuxSt p w1 ch0 ch1 = tsl2561CalculateLuxSt p w2 ch0 ch1 := by
  unfold tsl2561CalculateLuxSt
  rw [ht, hg]

/-- Witness for C8: the worlds `w0` and `wOther` differ in the initialised
flag, the call counters and the event log, yet yield the same lux. -/
theorem C8_calculateLux_pure_witness :
    w0.st.integrationTime = wOther.st.integrationTime ∧
    w0.st.gain = wOther.st.gain ∧
    tsl2561CalculateLuxSt tsl2561DefaultParams w0 100 30 =
      tsl2561CalculateLuxSt tsl2561DefaultParams wOther 100 30 :=
  ⟨rfl, rfl, C8_calculateLux_pure tsl2561DefaultParams w0 wOther 100 30 rfl rfl⟩

/-- C10: `tsl2561Write8` takes a 32-bit value argument but transmits only
its low byte: for every register and every pair of values congruent modulo
256 the whole outcome (buffer contents, transfer lengths, logged
transaction, result) is identical, and the transmit buffer holds exactly
the device address, the register byte and `value & 0xFF`, with write
length 3 and read length 0. -/
theorem C10_write8_low_byte (env : Env) (w : World) (reg v v' : Nat)
    (h : v % 256 = v' % 256) :
    tsl2561Write8 env w reg v = tsl2561Write8 env w reg v' ∧
    (tsl2561WriteTxn reg v).buf =
      [TSL2561_ADDRESS, reg % 256, v % 256, 0, 0, 0] ∧
    (tsl2561WriteTxn reg v).wLen = 3 ∧ (tsl2561WriteTxn reg v).rLen = 0 := by
  refine ⟨?_, rfl, rfl, rfl⟩
  unfold tsl2561Write8 i2cEngineCall tsl2561WriteTxn
  rw [h]

/-- Witness for C10: 0x5FF and 0xFF are congruent modulo 256 and produce
identical transactions. -/
theorem C10_write8_low_byte_witness :
    (0x5FF : Nat) % 256 = (0xFF : Nat) % 256 ∧
    tsl2561Write8 envAllOk w0 TSL2561_REGISTER_TIMING 0x5FF =
      tsl2561Write8 envAllOk w0 TSL2561_REGISTER_TIMING 0xFF :=
  ⟨by decide, (C10_write8_low_byte envAllOk w0 TSL2561_REGISTER_TIMING 0x5FF 0xFF
    (by decide)).1⟩

/-- C6: for every integration-time and gain setting (and any table
constants with a positive lux-scale), `calculateLux 0 0` returns exactly 0:
the ratio is defined as zero instead of dividing by zero, the raw-lux
subtraction is 0, and the rounding bias followed by the final right shift
yields 0. -/
theorem C6_calculateLux_zero_zero (p : LuxParams)
    (tint : tsl2561IntegrationTime_t) (gain : tsl2561Gain_t)
    (hl : 1 ≤ p.luxscale) :
    tsl2561CalculateLux p tint gain 0 0 = some 0 := by
  have hch : tsl2561Channel p tint gain 0 = 0 := by
    simp [tsl2561Channel]
  have hr : tsl2561RatioVal p tint gain 0 0 = 0 := by
    rw [tsl2561RatioVal]
    simp [hch, Nat.mod_eq_of_lt (show (1 : Nat) < 2 ^ 32 by norm_num)]
  have hsel : tsl2561LuxIdx p tint gain 0 0 = some 0 := by
    rw [tsl2561LuxIdx, hr, tsl2561SelectBM]
    simp
  rw [tsl2561CalculateLux, hsel]
  simp only [hch, tsl2561Entry, Nat.zero_mul, Nat.zero_mod]
  have hsub : sub32 0 0 = 0 := by
    rw [sub32]
    norm_num
  rw [hsub]
  have hlt : 2 ^ (p.luxscale - 1) % 4294967296 < 2 ^ p.luxscale := by
    calc 2 ^ (p.luxscale - 1) % 4294967296
        ≤ 2 ^ (p.luxscale - 1) := Nat.mod_le _ _
      _ < 2 ^ p.luxscale := Nat.pow_lt_pow_right (by norm_num) (by omega)
  simp [Nat.div_eq_of_lt hlt]

/-- Witness for C6: the concrete table satisfies the lux-scale hypothesis
and `calculateLux 0 0` evaluates to 0 at the 402 ms / 16x setting. -/
theorem C6_calculateLux_zero_zero_witness :
    1 ≤ tsl2561DefaultParams.luxscale ∧
    tsl2561CalculateLux tsl2561DefaultParams .t402ms .g16x 0 0 = some 0 :=
  ⟨by decide, C6_calculateLux_zero_zero tsl2561DefaultParams .t402ms .g16x
    (by decide)⟩

/-- C1: the clamp `if (temp < 0) temp = 0;` of `tsl2561CalculateLux`
compares the unsigned 32-bit accumulator with 0 and therefore never fires:
at ch0 = 0, ch1 = 500 (402 ms, 16x) the mathematically negative
intermediate `0*B1 - 500*M1 = -223000` wraps around to `2^32 - 223000` and
the function returns 262130 instead of the claimed rounding-bias constant
0 — and the result does depend on ch1 (ch1 = 1000 gives 262117),
contradicting the source's own "do not allow negative lux value" comment. -/
theorem C1_clamp_dead_wraparound :
    tsl2561CalculateLux tsl2561DefaultParams .t402ms .g16x 0 500 =
      some 262130 ∧
    tsl2561CalculateLux tsl2561DefaultParams .t402ms .g16x 0 1000 =
      some 262117 ∧
    (2 ^ 14 / 2 : Nat) / 2 ^ 14 = 0 := by
  refine ⟨by decide, by decide, by decide⟩

/-- C3 counterexample: with an engine that reports transfer failure, all
three bus operations still return `TSL2561_ERROR_OK` — they do not surface
a bus error to the caller. -/
theorem C3_busops_counterexample :
    (envAllFail.engine 0).engOk = false ∧
    (tsl2561Write8 envAllFail w0
      (TSL2561_COMMAND_BIT ||| TSL2561_REGISTER_CONTROL)
      TSL2561_CONTROL_POWERON).2 = .ok ∧
    (tsl2561WriteCmd envAllFail w0 TSL2561_COMMAND_BIT).2 = .ok ∧
    (tsl2561Read16 envAllFail w0
      (TSL2561_COMMAND_BIT ||| TSL2561_WORD_BIT |||
        TSL2561_REGISTER_CHAN0_LOW)).2.2 = .ok :=
  ⟨rfl, rfl, rfl, rfl⟩

/-- C3 amended: `tsl2561WriteCmd`, `tsl2561Write8` and `tsl2561Read16`
return `TSL2561_ERROR_OK` unconditionally — the engine's outcome is
discarded — and each invokes the bus engine exactly once (no retry). -/
theorem C3_busops_always_ok (env : Env) (w : World) (cmd reg reg2 value : Nat) :
    (tsl2561WriteCmd env w cmd).2 = .ok ∧
    (tsl2561WriteCmd env w cmd).1.engCalls = w.engCalls + 1 ∧
    (tsl2561Write8 env w reg value).2 = .ok ∧
    (tsl2561Write8 env w reg value).1.engCalls = w.engCalls + 1 ∧
    (tsl2561Read16 env w reg2).2.2 = .ok ∧
    (tsl2561Read16 env w reg2).1.engCalls = w.engCalls + 1 :=
  ⟨rfl, rfl, rfl, rfl, rfl, rfl⟩

/-- C9: when an operation triggers lazy initialisation and `i2cInit` fails,
the `tsl2561Init` result is discarded: `tsl2561Enable`/`tsl2561Disable`
still issue their CONTROL-register transaction and return OK (not the
fatal init error), the initialised flag stays false, and
`tsl2561SetTiming`/`tsl2561GetLuminosity` retry init on every
lazy-init-guarded step (three init attempts each), likewise returning OK
with the flag still false. -/
theorem C9_lazy_init_result_discarded (env : Env) (w : World)
    (integration : tsl2561IntegrationTime_t) (gain : tsl2561Gain_t)
    (hu : w.st.initialised = false) (hf : ∀ n, env.initOk n = false) :
    tsl2561Enable env w =
      ({ w with
          initCalls := w.initCalls + 1
          engCalls := w.engCalls + 1
          log := w.log ++ [.i2cTxn
            (tsl2561WriteTxn (TSL2561_COMMAND_BIT ||| TSL2561_REGISTER_CONTROL)
              TSL2561_CONTROL_POWERON) (env.engine w.engCalls)] }, .ok) ∧
    tsl2561Disable env w =
      ({ w with
          initCalls := w.initCalls + 1
          engCalls := w.engCalls + 1
          log := w.log ++ [.i2cTxn
            (tsl2561WriteTxn (TSL2561_COMMAND_BIT ||| TSL2561_REGISTER_CONTROL)
              TSL2561_CONTROL_POWEROFF) (env.engine w.engCalls)] }, .ok) ∧
    (tsl2561SetTiming env w integration gain).2 = .ok ∧
    (tsl2561SetTiming env w integration gain).1.st.initialised = false ∧
    (tsl2561SetTiming env w integration gain).1.initCalls = w.initCalls + 3 ∧
    (tsl2561GetLuminosity env w).2.1 = .ok ∧
    (tsl2561GetLuminosity env w).1.st.initialised = false ∧
    (tsl2561GetLuminosity env w).1.initCalls = w.initCalls + 3 := by
  unfold tsl2561GetLuminosity tsl2561SetTiming tsl2561Enable tsl2561Disable
    tsl2561LazyInit tsl2561Init tsl2561Read16 tsl2561Write8 i2cEngineCall
  simp [hu, hf]

/-- Witness for C9: concrete uninitialised world and always-failing
`i2cInit`; `tsl2561SetTiming` reports OK, leaves the flag false and has
attempted init three times. -/
theorem C9_lazy_init_result_discarded_witness :
    wUninit.st.initialised = false ∧
    (tsl2561SetTiming envInitFail wUninit .t13ms .g16x).2 = .ok ∧
    (tsl2561SetTiming envInitFail wUninit .t13ms .g16x).1.st.initialised
      = false ∧
    (tsl2561SetTiming envInitFail wUninit .t13ms .g16x).1.initCalls =
      wUninit.initCalls + 3 :=
  ⟨rfl,
    (C9_lazy_init_result_discarded envInitFail wUninit .t13ms .g16x rfl
      (fun _ => rfl)).2.2.1,
    (C9_lazy_init_result_discarded envInitFail wUninit .t13ms .g16x rfl
      (fun _ => rfl)).2.2.2.1,
    (C9_lazy_init_result_discarded envInitFail wUninit .t13ms .g16x rfl
      (fun _ => rfl)).2.2.2.2.1⟩

/-- C2 counterexample: the bus engine reports failure on the
timing-register transfer (indeed on every transfer), yet
`tsl2561SetTiming` still installs the new integration-time and gain values
in the in-memory state and returns OK — a failed register write does not
leave the fields as they were. -/
theorem C2_setTiming_counterexample :
    (envAllFail.engine 1).engOk = false ∧
    w0.st.integrationTime = .t402ms ∧ w0.st.gain = .g0x ∧
    (tsl2561SetTiming envAllFail w0 .t13ms .g16x).1.st.integrationTime
      = .t13ms ∧
    (tsl2561SetTiming envAllFail w0 .t13ms .g16x).1.st.gain = .g16x ∧
    (tsl2561SetTiming envAllFail w0 .t13ms .g16x).2 = .ok := by
  refine ⟨rfl, rfl, rfl, rfl, rfl, rfl⟩

/-- C2 amended: on an initialised device `tsl2561SetTiming` performs the
power-on write, the timing-register write of `integration | gain`, the
in-memory state update, and the power-off write, in exactly that order;
but because the bus layer discards the engine outcome, every step reports
OK, the sequence never aborts, and the in-memory fields are always set to
the requested values — even when the underlying transfers failed. -/
theorem C2_setTiming_sequence (env : Env) (w : World)
    (integration : tsl2561IntegrationTime_t) (gain : tsl2561Gain_t)
    (hi : w.st.initialised = true) :
    (tsl2561SetTiming env w integration gain).2 = .ok ∧
    (tsl2561SetTiming env w integration gain).1.st =
      { initialised := true, integrationTime := integration, gain := gain } ∧
    (tsl2561SetTiming env w integration gain).1.log = w.log ++
      [.i2cTxn (tsl2561WriteTxn
          (TSL2561_COMMAND_BIT ||| TSL2561_REGISTER_CONTROL)
          TSL2561_CONTROL_POWERON) (env.engine w.engCalls),
       .i2cTxn (tsl2561WriteTxn
          (TSL2561_COMMAND_BIT ||| TSL2561_REGISTER_TIMING)
          (integration.code ||| gain.code)) (env.engine (w.engCalls + 1)),
       .i2cTxn (tsl2561WriteTxn
          (TSL2561_COMMAND_BIT ||| TSL2561_REGISTER_CONTROL)
          TSL2561_CONTROL_POWEROFF) (env.engine (w.engCalls + 2))] := by
  unfold tsl2561SetTiming tsl2561Enable tsl2561Disable tsl2561LazyInit
    tsl2561Write8 i2cEngineCall
  simp [hi, List.append_assoc]

/-- Witness for C2 amended: concrete initialised world and all-successful
engine. -/
theorem C2_setTiming_sequence_witness :
    w0.st.initialised = true ∧
    (tsl2561SetTiming envAllOk w0 .t101ms .g16x).2 = .ok ∧
    (tsl2561SetTiming envAllOk w0 .t101ms .g16x).1.st =
      { initialised := true, integrationTime := .t101ms, gain := .g16x } :=
  ⟨rfl, (C2_setTiming_sequence envAllOk w0 .t101ms .g16x rfl).1,
    (C2_setTiming_sequence envAllOk w0 .t101ms .g16x rfl).2.1⟩

/-- C4 counterexample: the engine fails the channel-1 read (third
transfer), yet `tsl2561GetLuminosity` returns OK and stores values through
both out-pointers — the partial/garbage reading is delivered to the caller
instead of an error. -/
theorem C4_getLuminosity_counterexample :
    (envFailThird.engine 2).engOk = false ∧
    (tsl2561GetLuminosity envFailThird w0).2.1 = .ok ∧
    (tsl2561GetLuminosity envFailThird w0).2.2.1 = some 1541 ∧
    (tsl2561GetLuminosity envFailThird w0).2.2.2 = some 1799 := by
  refine ⟨rfl, rfl, rfl, rfl⟩

/-- C4 amended: on an initialised device `tsl2561GetLuminosity` performs
power-on, the integration-keyed delay, the channel-0 read, the channel-1
read and power-off in exactly that order; each step reports OK regardless
of the engine outcome, so it always returns OK with both out-parameters
written from the response bytes, and the power-off (disable) transaction
occurs exactly once per call. -/
theorem C4_getLuminosity_sequence (env : Env) (w : World)
    (hi : w.st.initialised = true) :
    (tsl2561GetLuminosity env w).2.1 = .ok ∧
    (tsl2561GetLuminosity env w).2.2.1 =
      some (tsl2561Read16Value (env.engine (w.engCalls + 1))) ∧
    (tsl2561GetLuminosity env w).2.2.2 =
      some (tsl2561Read16Value (env.engine (w.engCalls + 2))) ∧
    (tsl2561GetLuminosity env w).1.log = w.log ++
      [.i2cTxn (tsl2561WriteTxn
          (TSL2561_COMMAND_BIT ||| TSL2561_REGISTER_CONTROL)
          TSL2561_CONTROL_POWERON) (env.engine w.engCalls),
       .delayEv (tsl2561DelayMs w.st.integrationTime),
       .i2cTxn (tsl2561ReadTxn (TSL2561_COMMAND_BIT ||| TSL2561_WORD_BIT |||
          TSL2561_REGISTER_CHAN0_LOW)) (env.engine (w.engCalls + 1)),
       .i2cTxn (tsl2561ReadTxn (TSL2561_COMMAND_BIT ||| TSL2561_WORD_BIT |||
          TSL2561_REGISTER_CHAN1_LOW)) (env.engine (w.engCalls + 2)),
       .i2cTxn (tsl2561WriteTxn
          (TSL2561_COMMAND_BIT ||| TSL2561_REGISTER_CONTROL)
          TSL2561_CONTROL_POWEROFF) (env.engine (w.engCalls + 3))] ∧
    List.countP isPowerOffEv
      [DriverEv.i2cTxn (tsl2561WriteTxn
          (TSL2561_COMMAND_BIT ||| TSL2561_REGISTER_CONTROL)
          TSL2561_CONTROL_POWERON) (env.engine w.engCalls),
       .delayEv (tsl2561DelayMs w.st.integrationTime),
       .i2cTxn (tsl2561ReadTxn (TSL2561_COMMAND_BIT ||| TSL2561_WORD_BIT |||
          TSL2561_REGISTER_CHAN0_LOW)) (env.engine (w.engCalls + 1)),
       .i2cTxn (tsl2561ReadTxn (TSL2561_COMMAND_BIT ||| TSL2561_WORD_BIT |||
          TSL2561_REGISTER_CHAN1_LOW)) (env.engine (w.engCalls + 2)),
       .i2cTxn (tsl2561WriteTxn
          (TSL2561_COMMAND_BIT ||| TSL2561_REGISTER_CONTROL)
          TSL2561_CONTROL_POWEROFF) (env.engine (w.engCalls + 3))] = 1 := by
  refine ⟨?_, ?_, ?_, ?_, ?_⟩
  · unfold tsl2561GetLuminosity tsl2561Enable tsl2561Disable tsl2561LazyInit
      tsl2561Read16 tsl2561Write8 i2cEngineCall
    simp [hi]
  · unfold tsl2561GetLuminosity tsl2561Enable tsl2561Disable tsl2561LazyInit
      tsl2561Read16 tsl2561Write8 i2cEngineCall
    simp [hi]
  · unfold tsl2561GetLuminosity tsl2561Enable tsl2561Disable tsl2561LazyInit
      tsl2561Read16 tsl2561Write8 i2cEngineCall
    simp [hi]
  · unfold tsl2561GetLuminosity tsl2561Enable tsl2561Disable tsl2561LazyInit
      tsl2561Read16 tsl2561Write8 i2cEngineCall
    simp [hi, List.append_assoc]
  · simp only [List.countP_cons, List.countP_nil, isPowerOffEv]
    norm_num [show (tsl2561WriteTxn
        (TSL2561_COMMAND_BIT ||| TSL2561_REGISTER_CONTROL)
        TSL2561_CONTROL_POWERON == tsl2561WriteTxn
        (TSL2561_COMMAND_BIT ||| TSL2561_REGISTER_CONTROL)
        TSL2561_CONTROL_POWEROFF) = false from by decide,
      show (tsl2561ReadTxn (TSL2561_COMMAND_BIT ||| TSL2561_WORD_BIT |||
        TSL2561_REGISTER_CHAN0_LOW) == tsl2561WriteTxn
        (TSL2561_COMMAND_BIT ||| TSL2561_REGISTER_CONTROL)
        TSL2561_CONTROL_POWEROFF) = false from by decide,
      show (tsl2561ReadTxn (TSL2561_COMMAND_BIT ||| TSL2561_WORD_BIT |||
        TSL2561_REGISTER_CHAN1_LOW) == tsl2561WriteTxn
        (TSL2561_COMMAND_BIT ||| TSL2561_REGISTER_CONTROL)
        TSL2561_CONTROL_POWEROFF) = false from by decide,
      show (tsl2561WriteTxn
        (TSL2561_COMMAND_BIT ||| TSL2561_REGISTER_CONTROL)
        TSL2561_CONTROL_POWEROFF == tsl2561WriteTxn
        (TSL2561_COMMAND_BIT ||| TSL2561_REGISTER_CONTROL)
        TSL2561_CONTROL_POWEROFF) = true from by decide]

/-- Witness for C4 amended: concrete initialised world and all-successful
engine; the delivered reading assembles the response bytes 0x34, 0x12 into
0x1234. -/
theorem C4_getLuminosity_sequence_witness :
    w0.st.initialised = true ∧
    (tsl2561GetLuminosity envAllOk w0).2.1 = .ok ∧
    (tsl2561GetLuminosity envAllOk w0).2.2.1 = some 0x1234 ∧
    (tsl2561GetLuminosity envAllOk w0).2.2.2 = some 0x1234 :=
  ⟨rfl, (C4_getLuminosity_sequence envAllOk w0 rfl).1,
    (C4_getLuminosity_sequence envAllOk w0 rfl).2.1,
    (C4_getLuminosity_sequence envAllOk w0 rfl).2.2.1⟩

/-- C5: the selection cascade assigns the coefficients of the first
breakpoint whose threshold is greater than or equal to the rounded ratio
(a ratio exactly equal to a threshold selects that breakpoint, not the
next one), every ratio exceeding the last finite threshold selects the
final catch-all entry, and — because the stored eighth threshold does not
exceed the seventh — some breakpoint is assigned for every possible
ratio. -/
theorem C5_select_first_breakpoint (p : LuxParams) (r : Nat)
    (hord : p.k1 < p.k2 ∧ p.k2 < p.k3 ∧ p.k3 < p.k4 ∧ p.k4 < p.k5 ∧
      p.k5 < p.k6 ∧ p.k6 < p.k7)
    (h78 : p.k8 ≤ p.k7) :
    (r ≤ p.k1 → tsl2561SelectBM p r = some 0) ∧
    (p.k1 < r → r ≤ p.k2 → tsl2561SelectBM p r = some 1) ∧
    (p.k2 < r → r ≤ p.k3 → tsl2561SelectBM p r = some 2) ∧
    (p.k3 < r → r ≤ p.k4 → tsl2561SelectBM p r = some 3) ∧
    (p.k4 < r → r ≤ p.k5 → tsl2561SelectBM p r = some 4) ∧
    (p.k5 < r → r ≤ p.k6 → tsl2561SelectBM p r = some 5) ∧
    (p.k6 < r → r ≤ p.k7 → tsl2561SelectBM p r = some 6) ∧
    (p.k7 < r → tsl2561SelectBM p r = some 7) ∧
    (tsl2561SelectBM p r).isSome = true := by
  unfold tsl2561SelectBM
  refine ⟨fun h1 => ?_, fun h1 h2 => ?_, fun h1 h2 => ?_, fun h1 h2 => ?_,
    fun h1 h2 => ?_, fun h1 h2 => ?_, fun h1 h2 => ?_, fun h1 => ?_, ?_⟩ <;>
    split_ifs <;> first | rfl | (exfalso; omega)

/-- Witness for C5: at the concrete table the ratio 100 lies strictly
between the first and second thresholds and selects the second
breakpoint. -/
theorem C5_select_first_breakpoint_witness :
    tsl2561DefaultParams.k8 ≤ tsl2561DefaultParams.k7 ∧
    tsl2561DefaultParams.k1 < 100 ∧ 100 ≤ tsl2561DefaultParams.k2 ∧
    tsl2561SelectBM tsl2561DefaultParams 100 = some 1 ∧
    (tsl2561SelectBM tsl2561DefaultParams 100).isSome = true :=
  ⟨by decide, by decide, by decide,
    (C5_select_first_breakpoint tsl2561DefaultParams 100 (by decide)
      (by decide)).2.1 (by decide) (by decide),
    (C5_select_first_breakpoint tsl2561DefaultParams 100 (by decide)
      (by decide)).2.2.2.2.2.2.2.2⟩

/-- Arithmetic core of the within-segment nonnegativity argument: when the
rounded ratio of the scaled channels stays below a threshold k with
`(2k+1)*m ≤ 1024*b`, the subtraction `c0*b - c1*m` cannot go negative. -/
theorem tsl2561RatioMulBound (c0 c1 k b m : Nat) (hc0 : 0 < c0)
    (hc1 : c1 ≤ 4194303)
    (hr : ((c1 * 1024) % 4294967296 / c0 + 1) % 4294967296 / 2 ≤ k)
    (hkbm : (2 * k + 1) * m ≤ 1024 * b) : c1 * m ≤ c0 * b := by
  have h1 : c1 * 1024 < 4294967296 := by omega
  rw [Nat.mod_eq_of_lt h1] at hr
  have hds : c1 * 1024 / c0 ≤ c1 * 1024 := Nat.div_le_self _ _
  have h2 : c1 * 1024 / c0 + 1 < 4294967296 := by omega
  rw [Nat.mod_eq_of_lt h2] at hr
  have h3 : c1 * 1024 / c0 < 2 * k + 1 := by omega
  have h4 : c1 * 1024 < (2 * k + 1) * c0 := (Nat.div_lt_iff_lt_mul hc0).mp h3
  have h5 : c1 * m * 1024 ≤ c0 * b * 1024 := by
    calc c1 * m * 1024 = (c1 * 1024) * m := by ring
      _ ≤ ((2 * k + 1) * c0) * m := mul_le_mul_right' (Nat.le_of_lt h4) m
      _ = c0 * ((2 * k + 1) * m) := by ring
      _ ≤ c0 * (1024 * b) := mul_le_mul_left' hkbm c0
      _ = c0 * b * 1024 := by ring
  exact Nat.le_of_mul_le_mul_right h5 (by norm_num)

/-- On the concrete table the channel scale is at least 1024 (the unscaled
402 ms / 16x baseline) for every setting. -/
theorem tsl2561ChScale_dp_ge (t : tsl2561IntegrationTime_t)
    (g : tsl2561Gain_t) : 1024 ≤ tsl2561ChScale tsl2561DefaultParams t g := by
  cases t <;> cases g <;> decide

/-- When the raw count fits in 16 bits and the product with the channel
scale does not overflow 32 bits, the scaled channel is the plain scaled
quotient. -/
theorem tsl2561Channel_dp_eq (t : tsl2561IntegrationTime_t)
    (g : tsl2561Gain_t) (raw : Nat) (h16 : raw < 2 ^ 16)
    (hov : raw * tsl2561ChScale tsl2561DefaultParams t g < 2 ^ 32) :
    tsl2561Channel tsl2561DefaultParams t g raw =
      raw * tsl2561ChScale tsl2561DefaultParams t g / 1024 := by
  unfold tsl2561Channel
  rw [Nat.mod_eq_of_lt h16, Nat.mod_eq_of_lt hov]
  norm_num [tsl2561DefaultParams]

/-- The scaled channel value always fits below 2^22. -/
theorem tsl2561Channel_dp_le (t : tsl2561IntegrationTime_t)
    (g : tsl2561Gain_t) (raw : Nat) :
    tsl2561Channel tsl2561DefaultParams t g raw ≤ 4194303 := by
  unfold tsl2561Channel
  have h : ((raw % 2 ^ 16) * tsl2561ChScale tsl2561DefaultParams t g) % 2 ^ 32
      ≤ 4294967295 := by
    have := Nat.mod_lt
      ((raw % 2 ^ 16) * tsl2561ChScale tsl2561DefaultParams t g)
      (show 0 < 2 ^ 32 by norm_num)
    omega
  calc ((raw % 2 ^ 16) * tsl2561ChScale tsl2561DefaultParams t g) % 2 ^ 32 /
        2 ^ tsl2561DefaultParams.chscale
      ≤ 4294967295 / 2 ^ tsl2561DefaultParams.chscale := Nat.div_le_div_right h
    _ = 4194303 := by norm_num [tsl2561DefaultParams]

/-- The scaled channel is monotone in the raw count in the
overflow-free range. -/
theorem tsl2561Channel_dp_mono (t : tsl2561IntegrationTime_t)
    (g : tsl2561Gain_t) (x y : Nat) (hxy : x ≤ y) (hy : y < 2 ^ 16)
    (hov : y * tsl2561ChScale tsl2561DefaultParams t g < 2 ^ 32) :
    tsl2561Channel tsl2561DefaultParams t g x ≤
      tsl2561Channel tsl2561DefaultParams t g y := by
  have hx16 : x < 2 ^ 16 := Nat.lt_of_le_of_lt hxy hy
  have hovx : x * tsl2561ChScale tsl2561DefaultParams t g < 2 ^ 32 :=
    Nat.lt_of_le_of_lt (mul_le_mul_right' hxy _) hov
  rw [tsl2561Channel_dp_eq t g x hx16 hovx, tsl2561Channel_dp_eq t g y hy hov]
  exact Nat.div_le_div_right (mul_le_mul_right' hxy _)

/-- A positive raw count in the overflow-free range yields a positive
scaled channel. -/
theorem tsl2561Channel_dp_pos (t : tsl2561IntegrationTime_t)
    (g : tsl2561Gain_t) (x : Nat) (hx : 1 ≤ x) (h16 : x < 2 ^ 16)
    (hov : x * tsl2561ChScale tsl2561DefaultParams t g < 2 ^ 32) :
    0 < tsl2561Channel tsl2561DefaultParams t g x := by
  rw [tsl2561Channel_dp_eq t g x h16 hov]
  have h1 : 1024 ≤ x * tsl2561ChScale tsl2561DefaultParams t g := by
    calc (1024 : Nat) ≤ tsl2561ChScale tsl2561DefaultParams t g :=
        tsl2561ChScale_dp_ge t g
      _ ≤ x * tsl2561ChScale tsl2561DefaultParams t g := by
        have := mul_le_mul_right' hx (tsl2561ChScale tsl2561DefaultParams t g)
        simpa using this
  exact (Nat.one_le_div_iff (by norm_num)).mpr h1

/-- Unsigned 32-bit subtraction agrees with natural subtraction when the
subtrahend does not exceed the (in-range) minuend. -/
theorem sub32_no_wrap (a b : Nat) (hba : b ≤ a) (ha : a < 2 ^ 32) :
    sub32 a b = a - b := by
  unfold sub32
  have h : b % 2 ^ 32 = b := Nat.mod_eq_of_lt (Nat.lt_of_le_of_lt hba ha)
  rw [h]
  have h2 : a + (2 ^ 32 - b) = 2 ^ 32 + (a - b) := by omega
  rw [h2, Nat.add_mod_left]
  exact Nat.mod_eq_of_lt (by omega)

/-- The breakpoint coefficients of the concrete table are bounded by
B4 = 624 and M4 = 1022. -/
theorem tsl2561Entry_dp_bounds :
    ∀ i : Fin 8, (tsl2561Entry tsl2561DefaultParams i).1 ≤ 624 ∧
      (tsl2561Entry tsl2561DefaultParams i).2 ≤ 1022 := by
  decide

/-- When the rounded ratio of the scaled channels stays below a threshold
k with `(2k+1)*m ≤ 1024*b`, the products satisfy `c1*m ≤ c0*b` — the
raw-lux subtraction cannot go negative inside such a segment. -/
theorem tsl2561RatioVal_bound (t : tsl2561IntegrationTime_t)
    (g : tsl2561Gain_t) (ch0 ch1 : Nat) (k b m : Nat)
    (hc0 : 0 < tsl2561Channel tsl2561DefaultParams t g ch0)
    (hr : tsl2561RatioVal tsl2561DefaultParams t g ch0 ch1 ≤ k)
    (hkbm : (2 * k + 1) * m ≤ 1024 * b) :
    tsl2561Channel tsl2561DefaultParams t g ch1 * m ≤
      tsl2561Channel tsl2561DefaultParams t g ch0 * b := by
  have hc1le := tsl2561Channel_dp_le t g ch1
  unfold tsl2561RatioVal at hr
  simp only [ne_eq, hc0.ne', not_false_eq_true, if_true] at hr
  norm_num [tsl2561DefaultParams] at hr
  exact tsl2561RatioMulBound _ _ k b m hc0 hc1le hr hkbm

/-- Every breakpoint of the concrete default-package table satisfies the
within-segment nonnegativity inequality: if the selection cascade picks
entry i for a pair with positive scaled channel 0, then
`channel1 * M_i ≤ channel0 * B_i`. -/
theorem tsl2561_seg_bound (t : tsl2561IntegrationTime_t) (g : tsl2561Gain_t)
    (ch0 ch1 : Nat) (i : Fin 8)
    (hc0 : 0 < tsl2561Channel tsl2561DefaultParams t g ch0)
    (hsel : tsl2561LuxIdx tsl2561DefaultParams t g ch0 ch1 = some i) :
    tsl2561Channel tsl2561DefaultParams t g ch1 *
        (tsl2561Entry tsl2561DefaultParams i).2 ≤
      tsl2561Channel tsl2561DefaultParams t g ch0 *
        (tsl2561Entry tsl2561DefaultParams i).1 := by
  unfold tsl2561LuxIdx tsl2561SelectBM at hsel
  norm_num [tsl2561DefaultParams] at hsel
  split_ifs at hsel with h1 h2 h3 h4 h5 h6 h7 h8
  · obtain rfl := (Option.some.inj hsel).symm
    exact tsl2561RatioVal_bound t g ch0 ch1 64 498 446 hc0 h1 (by norm_num)
  · obtain rfl := (Option.some.inj hsel).symm
    exact tsl2561RatioVal_bound t g ch0 ch1 128 532 721 hc0 h2 (by norm_num)
  · obtain rfl := (Option.some.inj hsel).symm
    exact tsl2561RatioVal_bound t g ch0 ch1 192 575 891 hc0 h3 (by norm_num)
  · obtain rfl := (Option.some.inj hsel).symm
    exact tsl2561RatioVal_bound t g ch0 ch1 256 624 1022 hc0 h4 (by norm_num)
  · obtain rfl := (Option.some.inj hsel).symm
    exact tsl2561RatioVal_bound t g ch0 ch1 312 367 508 hc0 h5 (by norm_num)
  · obtain rfl := (Option.some.inj hsel).symm
    exact tsl2561RatioVal_bound t g ch0 ch1 410 210 251 hc0 h6 (by norm_num)
  · obtain rfl := (Option.some.inj hsel).symm
    exact tsl2561RatioVal_bound t g ch0 ch1 666 24 18 hc0 h7 (by norm_num)
  · obtain rfl := (Option.some.inj hsel).symm
    simp [tsl2561Entry, tsl2561DefaultParams]

/-- C7 counterexample: at 402 ms / 16x with ch1 = 100, the raw counts
ch0 = 0 and ch0' = 1000 select the same (first) calibration breakpoint,
yet the lux drops from 262141 to 28 when ch0 increases — the wrapped
negative intermediate at ch0 = 0 (never clamped, see the dead unsigned
comparison) breaks the claimed monotonicity. -/
theorem C7_mono_counterexample :
    tsl2561LuxIdx tsl2561DefaultParams .t402ms .g16x 0 100 =
      tsl2561LuxIdx tsl2561DefaultParams .t402ms .g16x 1000 100 ∧
    tsl2561CalculateLux tsl2561DefaultParams .t402ms .g16x 0 100 =
      some 262141 ∧
    tsl2561CalculateLux tsl2561DefaultParams .t402ms .g16x 1000 100 =
      some 28 ∧
    (28 : Nat) < 262141 := by
  refine ⟨by decide, by decide, by decide, by decide⟩

/-- C7 amended: holding ch1, the integration time and the gain fixed,
increasing the broadband count within a single calibration-curve segment
never decreases the computed lux, provided the smaller count is at least 1
(so the scaled channel 0 is nonzero and, on the default table, the raw-lux
subtraction stays nonnegative — the clamp being dead code) and the larger
count does not overflow the 32-bit channel scaling. -/
theorem C7_mono_within_segment (t : tsl2561IntegrationTime_t)
    (g : tsl2561Gain_t) (ch0 ch0' ch1 : Nat)
    (h01 : ch0 ≤ ch0') (hpos : 1 ≤ ch0) (h16 : ch0' < 2 ^ 16)
    (hov : ch0' * tsl2561ChScale tsl2561DefaultParams t g < 2 ^ 32)
    (hseg : tsl2561LuxIdx tsl2561DefaultParams t g ch0 ch1 =
            tsl2561LuxIdx tsl2561DefaultParams t g ch0' ch1)
    (v v' : Nat)
    (hv : tsl2561CalculateLux tsl2561DefaultParams t g ch0 ch1 = some v)
    (hv' : tsl2561CalculateLux tsl2561DefaultParams t g ch0' ch1 = some v') :
    v ≤ v' := by
  have h16a : ch0 < 2 ^ 16 := Nat.lt_of_le_of_lt h01 h16
  have hova : ch0 * tsl2561ChScale tsl2561DefaultParams t g < 2 ^ 32 :=
    Nat.lt_of_le_of_lt (mul_le_mul_right' h01 _) hov
  have hc0pos : 0 < tsl2561Channel tsl2561DefaultParams t g ch0 :=
    tsl2561Channel_dp_pos t g ch0 hpos h16a hova
  have hc0le : tsl2561Channel tsl2561DefaultParams t g ch0 ≤
      tsl2561Channel tsl2561DefaultParams t g ch0' :=
    tsl2561Channel_dp_mono t g ch0 ch0' h01 h16 hov
  have hcle : tsl2561Channel tsl2561DefaultParams t g ch0' ≤ 4194303 :=
    tsl2561Channel_dp_le t g ch0'
  cases hidx : tsl2561LuxIdx tsl2561DefaultParams t g ch0 ch1 with
  | none =>
      unfold tsl2561CalculateLux at hv
      rw [hidx] at hv
      cases hv
  | some i =>
      have hidx' : tsl2561LuxIdx tsl2561DefaultParams t g ch0' ch1 = some i :=
        hseg ▸ hidx
      have hbm := tsl2561Entry_dp_bounds i
      have hsb := tsl2561_seg_bound t g ch0 ch1 i hc0pos hidx
      unfold tsl2561CalculateLux at hv hv'
      rw [hidx] at hv
      rw [hidx'] at hv'
      simp only [Option.some.injEq] at hv hv'
      subst hv hv'
      set c0 := tsl2561Channel tsl2561DefaultParams t g ch0 with hc0def
      set c0' := tsl2561Channel tsl2561DefaultParams t g ch0' with hc0'def
      set c1 := tsl2561Channel tsl2561DefaultParams t g ch1 with hc1def
      set b := (tsl2561Entry tsl2561DefaultParams i).1 with hbdef
      set m := (tsl2561Entry tsl2561DefaultParams i).2 with hmdef
      have hc04 : c0 ≤ 4194303 := le_trans hc0le hcle
      have hb1 : c0 * b ≤ 2617245072 := by
        calc c0 * b ≤ 4194303 * 624 := Nat.mul_le_mul hc04 hbm.1
          _ = 2617245072 := by norm_num
      have hb2 : c0' * b ≤ 2617245072 := by
        calc c0' * b ≤ 4194303 * 624 := Nat.mul_le_mul hcle hbm.1
          _ = 2617245072 := by norm_num
      have hlt1 : c0 * b < 2 ^ 32 := Nat.lt_of_le_of_lt hb1 (by norm_num)
      have hlt2 : c0' * b < 2 ^ 32 := Nat.lt_of_le_of_lt hb2 (by norm_num)
      have hsb' : c1 * m ≤ c0' * b := le_trans hsb (mul_le_mul_right' hc0le b)
      have hm1lt : c1 * m < 2 ^ 32 := Nat.lt_of_le_of_lt hsb hlt1
      rw [Nat.mod_eq_of_lt hlt1, Nat.mod_eq_of_lt hlt2, Nat.mod_eq_of_lt hm1lt,
        sub32_no_wrap _ _ hsb hlt1, sub32_no_wrap _ _ hsb' hlt2]
      simp only [Nat.not_lt_zero, if_false]
      norm_num [tsl2561DefaultParams]
      have hmod1 : c0 * b - c1 * m + 8192 < 4294967296 := by omega
      have hmod2 : c0' * b - c1 * m + 8192 < 4294967296 := by omega
      rw [Nat.mod_eq_of_lt hmod1, Nat.mod_eq_of_lt hmod2]
      have hmono : c0 * b ≤ c0' * b := mul_le_mul_right' hc0le b
      exact Nat.div_le_div_right (by omega)

/-- Witness for C7 amended: 500 ≤ 1000 at 402 ms / 16x with ch1 = 0, both
in the first segment, no overflow; lux rises from 15 to 30. -/
theorem C7_mono_within_segment_witness :
    (500 : Nat) ≤ 1000 ∧ (1 : Nat) ≤ 500 ∧ (1000 : Nat) < 2 ^ 16 ∧
    1000 * tsl2561ChScale tsl2561DefaultParams .t402ms .g16x < 2 ^ 32 ∧
    tsl2561LuxIdx tsl2561DefaultParams .t402ms .g16x 500 0 =
      tsl2561LuxIdx tsl2561DefaultParams .t402ms .g16x 1000 0 ∧
    tsl2561CalculateLux tsl2561DefaultParams .t402ms .g16x 500 0 =
      some 15 ∧
    tsl2561CalculateLux tsl2561DefaultParams .t402ms .g16x 1000 0 =
      some 30 ∧
    (15 : Nat) ≤ 30 :=
  ⟨by decide, by decide, by decide, by decide, by decide, by decide, by decide,
    C7_mono_within_segment .t402ms .g16x 500 1000 0 (by decide) (by decide)
      (by decide) (by decide) (by decide) 15 30 (by decide) (by decide)⟩
